import Mathlib

/-!
# Verification of the schema-driven CRUD query construction in `main.py`

This file shallowly embeds the request handlers of the pgsql-webui-simple
application (`src/build/main.py`): the startup schema loader
(`startup_event`), and the four data handlers `get_data`, `create_data`,
`update_data`, `delete_data`.

Modelling choices:
* Record values are opaque to the query builder (they are only passed as
  bind parameters), so they are modelled as strings.
* Python dictionaries (`table_schemas`, request bodies) are modelled as
  association lists with first-match lookup, which matches Python `dict.get`.
* FastAPI query parameters: `sort_by: str = None` is `Option String`
  (`none` = absent, `some ""` = supplied but empty); Python truthiness of
  a string option is `pyTruthy`.
* Database execution is abstracted by an `ExecResult` argument: the
  statement either executes with an affected-row count (`cur.rowcount`)
  or raises a driver error with a message.  The Python `try`/`except
  Exception` blocks are embedded faithfully: an `HTTPException` raised
  inside the `try` body (the zero-rowcount branch) is itself an
  `Exception`, so it is caught by the handler's own `except` clause and
  re-surfaced as a 500 response wrapping its string form.
* `print` warnings of the startup loader are modelled as a returned list
  of the table names that were warned about.
-/

namespace PgWebui

/-- A record value; opaque to the query builder (always bound as `%s`). -/
abbrev Value := String

/-- A row / request body: an ordered mapping from column name to value,
modelling a Python `dict` (keys unique, insertion-ordered). -/
abbrev Record := List (String × Value)

/-- One row of the startup catalog query (`information_schema.columns`
joined with the primary-key constraint count), as stored in
`table_schemas[name]["columns"]`. -/
structure ColumnInfo where
  column_name : String
  data_type : String
  is_nullable : String
  is_primary_key : Bool
deriving Repr, DecidableEq

/-- The per-table entry of the `table_schemas` dictionary:
`{"columns": rows, "primaryKey": primary_key}`. -/
structure TableSchema where
  columns : List ColumnInfo
  primaryKey : Option String
deriving Repr, DecidableEq

/-- The `table_schemas` global dictionary, keyed by table name. -/
abbrev SchemaRegistry := List (String × TableSchema)

/-- First-match association-list lookup: Python `dict.get`. -/
def lookupSchema : SchemaRegistry → String → Option TableSchema
  | [], _ => none
  | (n, s) :: rest, t => if n = t then some s else lookupSchema rest t

/-- First-match lookup in a record, Python `dict.get` / `dict[k]`. -/
def lookupField : List (String × Value) → String → Option Value
  | [], _ => none
  | (k, v) :: rest, t => if k = t then some v else lookupField rest t

/-- Python truthiness of an optional string: `None` and `""` are falsy. -/
def pyTruthy : Option String → Bool
  | none => false
  | some s => s ≠ ""

/-- A FastAPI `HTTPException(status_code, detail)`. -/
structure HTTPError where
  status : Nat
  detail : String
deriving Repr, DecidableEq

def unknownTableErr : HTTPError := ⟨404, "Unknown table."⟩

def schemaNotFoundErr : HTTPError := ⟨404, "Table schema not found."⟩

def invalidSortColumnErr : HTTPError := ⟨400, "Invalid sort column."⟩

def invalidSortOrderErr : HTTPError := ⟨400, "Invalid sort order."⟩

def updateNoPkErr : HTTPError :=
  ⟨400, "Cannot update a table with no primary key defined."⟩

def deleteNoPkErr : HTTPError :=
  ⟨400, "Cannot delete from a table with no primary key defined."⟩

def recordNotFoundDetail : String := "Record with the specified ID not found."

/-- Double-quote an identifier, as the f-strings in `main.py` do. -/
def quoteId (s : String) : String := "\"" ++ s ++ "\""

/-- Python `str.lower()`, character by character (all strings compared
against it here are ASCII). -/
def pyLower (s : String) : String := ⟨s.data.map Char.toLower⟩

/-- Python `str.upper()`, character by character. -/
def pyUpper (s : String) : String := ⟨s.data.map Char.toUpper⟩

/-! ## Startup schema loading (`startup_event`, main.py lines 51-99) -/

/-- `primary_key = next((col['column_name'] for col in rows if col['is_primary_key']), None)`. -/
def firstPrimaryKey (rows : List ColumnInfo) : Option String :=
  (rows.find? (fun c => c.is_primary_key)).map (fun c => c.column_name)

/-- `table_schemas[table_name] = {"columns": rows, "primaryKey": primary_key}`. -/
def mkSchema (rows : List ColumnInfo) : TableSchema :=
  { columns := rows, primaryKey := firstPrimaryKey rows }

/-- The startup loop over `table_names`.  `db name` is the row list the
catalog query returns for `name`.  Returns the resulting `table_schemas`
registry together with the list of table names for which the
`"Warning: Table not found or has no columns."` message was printed
(zero-row tables). -/
def startup_event (db : String → List ColumnInfo) : List String → SchemaRegistry × List String
  | [] => ([], [])
  | name :: rest =>
    if db name = [] then
      ((startup_event db rest).1, name :: (startup_event db rest).2)
    else
      ((name, mkSchema (db name)) :: (startup_event db rest).1,
        (startup_event db rest).2)

/-! ## Select handler (`get_data`, main.py lines 117-149)

The handler is embedded up to the point where `cur.execute(query)` is
called: an `.ok q` result means the SQL text `q` is the statement that
gets executed, an `.error e` result means `HTTPException e` was raised
before any query was built or executed. -/

/-- Lines 128-136: the `if sort_by:` branch — validate the requested sort
column against the schema's column list, then the sort order, then build
the ORDER BY clause. -/
def requestedOrderClause (schema : TableSchema) (sb : String) (sort_order : String) :
    Except HTTPError String :=
  if sb ∈ schema.columns.map (fun c => c.column_name) then
    if pyLower sort_order = "asc" ∨ pyLower sort_order = "desc" then
      .ok ("ORDER BY " ++ quoteId sb ++ " " ++ pyUpper sort_order)
    else .error invalidSortOrderErr
  else .error invalidSortColumnErr

/-- Lines 137-140: the `else` branch — default to ascending order by the
primary key if one exists (Python truthiness: a `None` or empty primary
key gives no clause). -/
def defaultOrderClause (schema : TableSchema) : String :=
  match schema.primaryKey with
  | some pk => if pk = "" then "" else "ORDER BY " ++ quoteId pk ++ " ASC"
  | none => ""

/-- Line 144: `query = f'SELECT * FROM "{table}" {order_by_clause}'`. -/
def selectQuery (table : String) (order_by_clause : String) : String :=
  "SELECT * FROM " ++ quoteId table ++ " " ++ order_by_clause

/-- `GET /api/data/{table}` (main.py lines 117-149), up to query execution. -/
def get_data (table_names : List String) (table_schemas : SchemaRegistry)
    (table : String) (sort_by : Option String) (sort_order : String) :
    Except HTTPError String :=
  if table ∈ table_names then
    match lookupSchema table_schemas table with
    | none => .error schemaNotFoundErr
    | some schema =>
      if pyTruthy sort_by then
        match requestedOrderClause schema (sort_by.getD "") sort_order with
        | .error e => .error e
        | .ok c => .ok (selectQuery table c)
      else .ok (selectQuery table (defaultOrderClause schema))
  else .error unknownTableErr

/-! ## Insert handler (`create_data`, main.py lines 151-174) -/

/-- The INSERT statement built by `create_data`, kept with its column
list and bind parameters. -/
structure InsertQuery where
  table : String
  columns : List String
  params : List Value
  query : String
deriving Repr, DecidableEq

/-- `POST /api/data/{table}` (main.py lines 151-164), up to query
execution.  Only membership in `table_names` is checked; the schema
registry is not consulted and the column list is taken verbatim from the
submitted record's keys. -/
def create_data (table_names : List String) (table : String) (data : Record) :
    Except HTTPError InsertQuery :=
  if table ∈ table_names then
    let columns := data.map Prod.fst
    let values := data.map Prod.snd
    let cols_str := String.intercalate ", " (columns.map quoteId)
    let vals_str := String.intercalate ", " (values.map (fun _ => "%s"))
    .ok { table := table, columns := columns, params := values,
          query := "INSERT INTO " ++ quoteId table ++ " (" ++ cols_str ++
            ") VALUES (" ++ vals_str ++ ") RETURNING *" }
  else .error unknownTableErr

/-! ## Execution model shared by the mutation handlers

`cur.execute` either succeeds leaving `cur.rowcount` affected rows, or
raises a driver exception carrying a message. -/

/-- Outcome of `cur.execute` for a mutation statement. -/
inductive ExecResult where
  | ok (rowcount : Nat)
  | fail (msg : String)
deriving Repr, DecidableEq

/-- An exception live inside a handler's `try` block: either a raised
FastAPI `HTTPException` or a database driver error. -/
inductive PyExc where
  | httpExc (e : HTTPError)
  | dbError (msg : String)
deriving Repr, DecidableEq

/-- Python `str(e)`: Starlette's `HTTPException.__str__` is
`f"{status_code}: {detail}"`; a driver error is its message. -/
def pyStr : PyExc → String
  | .httpExc e => toString e.status ++ ": " ++ e.detail
  | .dbError m => m

/-- The HTTP outcome of a full mutation handler run, including the
transaction discipline observed on the connection. -/
structure HttpResponse where
  status : Nat
  body : Option Record
  detail : Option String
  committed : Bool
  rolledBack : Bool
deriving Repr, DecidableEq

/-- An `HTTPException` raised before the `try` block propagates with its
own status; no transaction activity has happened. -/
def errorResponse (e : HTTPError) : HttpResponse :=
  { status := e.status, body := none, detail := some e.detail,
    committed := false, rolledBack := false }

/-- The `except Exception as e` clause of a mutation handler:
`conn.rollback()` then `raise HTTPException(500, prefix + str(e))`.
Because FastAPI's `HTTPException` is an `Exception`, a 404 raised inside
the `try` body lands here too. -/
def exceptClause (msgPrefix : String) (e : PyExc) : HttpResponse :=
  { status := 500, body := none, detail := some (msgPrefix ++ pyStr e),
    committed := false, rolledBack := true }

/-! ## Update handler (`update_data`, main.py lines 177-205) -/

/-- The UPDATE statement built by `update_data`, with the SET-clause
column list, the SET bind parameters and the WHERE parameter. -/
structure UpdateQuery where
  table : String
  pk : String
  setColumns : List String
  params : List Value
  whereParam : Value
  query : String
deriving Repr, DecidableEq

/-- Lines 180-193 of `update_data`: the primary-key gate
(`if not schema or not schema.get("primaryKey")`, Python truthiness:
an absent schema, a `None` primary key and an empty-string primary key
all fail), then `data.pop(primary_key, None)` and the SET clause. -/
def update_build (table_schemas : SchemaRegistry) (table : String)
    (data : Record) (item_id : Value) : Except HTTPError UpdateQuery :=
  match lookupSchema table_schemas table with
  | none => .error updateNoPkErr
  | some schema =>
    match schema.primaryKey with
    | none => .error updateNoPkErr
    | some pk =>
      if pk = "" then .error updateNoPkErr
      else
        let stripped := data.filter (fun kv => kv.1 ≠ pk)
        let columns := stripped.map Prod.fst
        let values := stripped.map Prod.snd
        let set_clause := String.intercalate ", " (columns.map (fun c => quoteId c ++ " = %s"))
        .ok { table := table, pk := pk, setColumns := columns,
              params := values, whereParam := item_id,
              query := "UPDATE " ++ quoteId table ++ " SET " ++ set_clause ++
                " WHERE " ++ quoteId pk ++ " = %s RETURNING *" }

/-- The `try` body of `update_data` (lines 196-202): execute, raise a 404
`HTTPException` on zero affected rows, else fetch the RETURNING row and
commit.  `row` is the row `cur.fetchone()` yields on the success path. -/
def update_try_body (exec : ExecResult) (row : Record) : Except PyExc Record :=
  match exec with
  | .fail m => .error (.dbError m)
  | .ok rowcount =>
    if rowcount = 0 then .error (.httpExc ⟨404, recordNotFoundDetail⟩)
    else .ok row

/-- `PUT /api/data/{table}/{item_id}` (main.py lines 177-205), end to end:
build the statement, run the `try` body against the abstract execution
outcome, and apply the `except Exception` clause to anything it raises. -/
def update_data (table_schemas : SchemaRegistry) (table : String)
    (data : Record) (item_id : Value) (exec : ExecResult) (row : Record) :
    HttpResponse :=
  match update_build table_schemas table data item_id with
  | .error e => errorResponse e
  | .ok _ =>
    match update_try_body exec row with
    | .error e => exceptClause "Error updating data: " e
    | .ok r =>
      { status := 200, body := some r, detail := none,
        committed := true, rolledBack := false }

/-! ## Delete handler (`delete_data`, main.py lines 208-227) -/

/-- The DELETE statement built by `delete_data`. -/
structure DeleteQuery where
  table : String
  pk : String
  whereParam : Value
  query : String
deriving Repr, DecidableEq

/-- Lines 211-216 of `delete_data`: the same primary-key gate as update,
then the DELETE statement. -/
def delete_build (table_schemas : SchemaRegistry) (table : String)
    (item_id : Value) : Except HTTPError DeleteQuery :=
  match lookupSchema table_schemas table with
  | none => .error deleteNoPkErr
  | some schema =>
    match schema.primaryKey with
    | none => .error deleteNoPkErr
    | some pk =>
      if pk = "" then .error deleteNoPkErr
      else
        .ok { table := table, pk := pk, whereParam := item_id,
              query := "DELETE FROM " ++ quoteId table ++ " WHERE " ++
                quoteId pk ++ " = %s" }

/-- The `try` body of `delete_data` (lines 219-224): execute, raise a 404
`HTTPException` on zero affected rows, else commit and return
`JSONResponse(content={}, status_code=204)`. -/
def delete_try_body (exec : ExecResult) : Except PyExc Unit :=
  match exec with
  | .fail m => .error (.dbError m)
  | .ok rowcount =>
    if rowcount = 0 then .error (.httpExc ⟨404, recordNotFoundDetail⟩)
    else .ok ()

/-- `DELETE /api/data/{table}/{item_id}` (main.py lines 208-227), end to
end.  The 204 success body is the empty JSON object passed to
`JSONResponse`. -/
def delete_data (table_schemas : SchemaRegistry) (table : String)
    (item_id : Value) (exec : ExecResult) : HttpResponse :=
  match delete_build table_schemas table item_id with
  | .error e => errorResponse e
  | .ok _ =>
    match delete_try_body exec with
    | .error e => exceptClause "Error deleting data: " e
    | .ok _ =>
      { status := 204, body := some [], detail := none,
        committed := true, rolledBack := false }

/-! ## Row-update semantics

Modelled from the spec: executing the generated UPDATE statement against
the matching stored row applies each SET assignment to its column and
leaves every other column of the row unchanged (PostgreSQL UPDATE
semantics; the database itself is outside `src/`). -/

/-- Apply the SET assignments `assigns` (column name, new value) to a
stored row: a column listed in the assignments takes its new value,
every other column keeps its value. -/
def applyAssignments (assigns : List (String × Value)) (row : Record) : Record :=
  row.map (fun kv =>
    match lookupField assigns kv.1 with
    | some v => (kv.1, v)
    | none => kv)

/-- The `if not schema or not schema.get("primaryKey")` gate shared by
`update_data` (line 181) and `delete_data` (line 212), as a predicate on
the registry: true when the table has no loaded schema or its schema has
no (truthy) primary key. -/
def missingPk (table_schemas : SchemaRegistry) (table : String) : Bool :=
  match lookupSchema table_schemas table with
  | none => true
  | some s => !(pyTruthy s.primaryKey)

/-! ## Concrete fixtures used by witnesses and counterexamples -/

def idCol : ColumnInfo :=
  { column_name := "id", data_type := "integer", is_nullable := "NO",
    is_primary_key := true }

def nameCol : ColumnInfo :=
  { column_name := "name", data_type := "text", is_nullable := "YES",
    is_primary_key := false }

def msgCol : ColumnInfo :=
  { column_name := "msg", data_type := "text", is_nullable := "YES",
    is_primary_key := false }

/-- Schema of a `users` table with primary key `id`. -/
def usersSchema : TableSchema := { columns := [idCol, nameCol], primaryKey := some "id" }

/-- Schema of a `logs` table with no primary key. -/
def logsSchema : TableSchema := { columns := [msgCol], primaryKey := none }

/-- A configured table list: `TABLES=users,logs,ghost`. -/
def demoNames : List String := ["users", "logs", "ghost"]

/-- A registry in which `users` and `logs` loaded but `ghost` did not
(zero catalog rows at startup). -/
def demoRegistry : SchemaRegistry := [("users", usersSchema), ("logs", logsSchema)]

/-- A catalog in which `users` and `logs` have columns and every other
table (in particular `ghost`) yields zero rows. -/
def demoDb (name : String) : List ColumnInfo :=
  if name = "users" then [idCol, nameCol]
  else if name = "logs" then [msgCol]
  else []

/-! ## Helper lemmas -/

theorem lookupField_eq_none_of_not_mem (l : List (String × Value)) (k : String)
    (h : k ∉ l.map Prod.fst) : lookupField l k = none := by
  induction l with
  | nil => rfl
  | cons kv rest ih =>
    obtain ⟨a, b⟩ := kv
    simp only [List.map_cons, List.mem_cons, not_or] at h
    have hne : a ≠ k := fun he => h.1 he.symm
    simp only [lookupField, if_neg hne]
    exact ih h.2

theorem lookupField_applyAssignments_of_not_mem (assigns : List (String × Value))
    (k : String) (h : k ∉ assigns.map Prod.fst) (row : Record) :
    lookupField (applyAssignments assigns row) k = lookupField row k := by
  induction row with
  | nil => rfl
  | cons kv rest ih =>
    obtain ⟨a, b⟩ := kv
    by_cases hak : a = k
    · subst hak
      simp [applyAssignments, lookupField, lookupField_eq_none_of_not_mem assigns a h]
    · cases hl : lookupField assigns a <;>
        simpa [applyAssignments, lookupField, hl, hak] using ih

theorem not_mem_map_fst_filter_ne (data : Record) (pk : String) :
    pk ∉ (data.filter (fun kv => kv.1 ≠ pk)).map Prod.fst := by
  intro h
  obtain ⟨kv, hkv, hfst⟩ := List.mem_map.mp h
  have := List.of_mem_filter hkv
  simp [hfst] at this

/-- A concrete built DELETE statement for the `users` fixture. -/
def demoDeleteQuery : DeleteQuery :=
  { table := "users", pk := "id", whereParam := "7",
    query := "DELETE FROM \"users\" WHERE \"id\" = %s" }

/-- A concrete built UPDATE statement for the `users` fixture, for a body
that tried to overwrite the primary key. -/
def demoUpdateQuery : UpdateQuery :=
  { table := "users", pk := "id", setColumns := ["name"], params := ["Ann"],
    whereParam := "7",
    query := "UPDATE \"users\" SET \"name\" = %s WHERE \"id\" = %s RETURNING *" }

/-! ## Startup lemmas (for claim C7) -/

theorem startup_not_registered (db : String → List ColumnInfo) (t : String)
    (hzero : db t = []) (names : List String) :
    lookupSchema (startup_event db names).1 t = none := by
  induction names with
  | nil => rfl
  | cons n rest ih =>
    by_cases hn : db n = []
    · simp only [startup_event, if_pos hn]
      exact ih
    · have hnt : n ≠ t := fun he => hn (he ▸ hzero)
      simp only [startup_event, if_neg hn, lookupSchema, if_neg hnt]
      exact ih

theorem startup_warned (db : String → List ColumnInfo) (t : String)
    (hzero : db t = []) (names : List String) (hmem : t ∈ names) :
    t ∈ (startup_event db names).2 := by
  induction names with
  | nil => exact absurd hmem (List.not_mem_nil t)
  | cons n rest ih =>
    by_cases hn : db n = []
    · rcases List.mem_cons.mp hmem with he | hr
      · subst he
        simp [startup_event, hn]
      · simp only [startup_event, if_pos hn, List.mem_cons]
        exact Or.inr (ih hr)
    · rcases List.mem_cons.mp hmem with he | hr
      · subst he
        exact absurd hzero hn
      · simp only [startup_event, if_neg hn]
        exact ih hr

theorem startup_registered (db : String → List ColumnInfo) (u : String)
    (hne : db u ≠ []) (names : List String) (hmem : u ∈ names) :
    lookupSchema (startup_event db names).1 u = some (mkSchema (db u)) := by
  induction names with
  | nil => exact absurd hmem (List.not_mem_nil u)
  | cons n rest ih =>
    by_cases hn : db n = []
    · have hnu : u ≠ n := fun he => hne (he ▸ hn)
      rcases List.mem_cons.mp hmem with he | hr
      · exact absurd he hnu
      · simp only [startup_event, if_pos hn]
        exact ih hr
    · by_cases hnu : n = u
      · subst hnu
        simp [startup_event, hn, lookupSchema]
      · rcases List.mem_cons.mp hmem with he | hr
        · exact absurd he.symm hnu
        · simp only [startup_event, if_neg hn, lookupSchema, if_neg hnu]
          exact ih hr

/-! ## Claim theorems -/

/-- Claim C1 (code bug).  The claim states that a zero-affected-rows
UPDATE or DELETE surfaces the not-found error with HTTP status 404,
distinct from the 500 of an execution failure.  The code contradicts
this: the 404 `HTTPException` is raised inside the `try` block, and the
handler `except Exception` clause catches it (a FastAPI `HTTPException`
is an `Exception`), rolls back, and re-raises it as a 500 wrapping its
text.  This theorem evaluates both handlers at failing inputs: the
zero-rows outcome carries status 500, the same status as a genuine
execution failure. -/
theorem update_delete_zero_rows_surface_500 :
    (update_data demoRegistry "users" [("name", "Bob")] "999" (.ok 0) []).status = 500 ∧
    (update_data demoRegistry "users" [("name", "Bob")] "999" (.ok 0) []).detail =
      some "Error updating data: 404: Record with the specified ID not found." ∧
    (delete_data demoRegistry "users" "999" (.ok 0)).status = 500 ∧
    (delete_data demoRegistry "users" "999" (.ok 0)).detail =
      some "Error deleting data: 404: Record with the specified ID not found." ∧
    (update_data demoRegistry "users" [("name", "Bob")] "999" (.fail "connection lost") []).status = 500 ∧
    (delete_data demoRegistry "users" "999" (.fail "connection lost")).status = 500 := by
  decide

/-- Claim C2: when an update body contains the primary-key field of the
table, `update_data` strips it before building the SET clause: the built
statement carries the schema primary key, its SET-column list never
contains that key, and applying the SET assignments of the statement to
any stored row leaves the value of the primary-key field of that row
unchanged. -/
theorem update_strips_primary_key
    (table_schemas : SchemaRegistry) (table : String) (data : Record)
    (item_id : Value) (q : UpdateQuery) (schema : TableSchema) (row : Record)
    (hschema : lookupSchema table_schemas table = some schema)
    (hq : update_build table_schemas table data item_id = .ok q) :
    schema.primaryKey = some q.pk ∧
    q.pk ∉ q.setColumns ∧
    lookupField (applyAssignments (q.setColumns.zip q.params) row) q.pk =
      lookupField row q.pk := by
  simp only [update_build, hschema] at hq
  cases hp : schema.primaryKey with
  | none =>
    simp [hp] at hq
  | some pk =>
    simp only [hp] at hq
    by_cases hpe : pk = ""
    · subst hpe
      simp at hq
    · rw [if_neg hpe] at hq
      injection hq with hq
      subst hq
      refine ⟨rfl, not_mem_map_fst_filter_ne data pk, ?_⟩
      apply lookupField_applyAssignments_of_not_mem
      have hlen : ((data.filter (fun kv => kv.1 ≠ pk)).map Prod.fst).length ≤
          ((data.filter (fun kv => kv.1 ≠ pk)).map Prod.snd).length := by
        simp
      rw [List.map_fst_zip _ _ hlen]
      exact not_mem_map_fst_filter_ne data pk

/-- Claim C3: a select request with a nonempty `sort_by` that is not one
of the columns of the schema of the table is rejected with the 400
invalid-sort-column error; a `sort_by` that is a schema column combined
with a sort order that is not `asc`/`desc` case-insensitively is
rejected with the 400 invalid-sort-order error.  In both cases
`get_data` returns the error instead of a query string, so no statement
reaches execution. -/
theorem get_data_sort_validation_rejects
    (table_names : List String) (table_schemas : SchemaRegistry)
    (table sb sort_order : String) (schema : TableSchema)
    (hmem : table ∈ table_names)
    (hschema : lookupSchema table_schemas table = some schema)
    (hne : sb ≠ "")
    (hbad : sb ∉ schema.columns.map (fun c => c.column_name) ∨
      (pyLower sort_order ≠ "asc" ∧ pyLower sort_order ≠ "desc")) :
    get_data table_names table_schemas table (some sb) sort_order =
      .error (if sb ∈ schema.columns.map (fun c => c.column_name)
        then invalidSortOrderErr else invalidSortColumnErr) := by
  have htr : pyTruthy (some sb) = true := by simp [pyTruthy, hne]
  by_cases hcol : sb ∈ schema.columns.map (fun c => c.column_name)
  · have horder := hbad.resolve_left (fun h => h hcol)
    simp [get_data, hmem, hschema, htr, requestedOrderClause, hcol,
      horder.1, horder.2]
  · simp [get_data, hmem, hschema, htr, requestedOrderClause, hcol]

/-- Claim C4: with no `sort_by` requested, the generated select statement
orders ascending by the primary key of the table when the schema has
one, and when the schema has none the order-by component is empty — the
statement is exactly the bare select with no ORDER BY clause. -/
theorem get_data_default_ordering
    (table_names : List String) (table_schemas : SchemaRegistry)
    (table sort_order : String) (schema : TableSchema)
    (hmem : table ∈ table_names)
    (hschema : lookupSchema table_schemas table = some schema)
    (hpk : schema.primaryKey ≠ some "") :
    get_data table_names table_schemas table none sort_order =
      .ok (selectQuery table
        (match schema.primaryKey with
         | some pk => "ORDER BY " ++ quoteId pk ++ " ASC"
         | none => "")) := by
  cases hp : schema.primaryKey with
  | none => simp [get_data, hmem, hschema, pyTruthy, defaultOrderClause, hp]
  | some pk =>
    have hpe : pk ≠ "" := fun he => hpk (he ▸ hp)
    simp [get_data, hmem, hschema, pyTruthy, defaultOrderClause, hp, hpe]

/-- Claim C5: an update or delete on a table whose schema is absent from
the registry, or whose schema has no truthy primary key, fails with the
400 missing-primary-key error: the builders return the error, and the
full handler responses equal that 400 response for every possible
execution outcome — showing no statement was built or executed. -/
theorem update_delete_missing_pk_400
    (table_schemas : SchemaRegistry) (table : String) (data : Record)
    (item_id : Value) (exec : ExecResult) (row : Record)
    (h : missingPk table_schemas table = true) :
    update_build table_schemas table data item_id = .error updateNoPkErr ∧
    delete_build table_schemas table item_id = .error deleteNoPkErr ∧
    update_data table_schemas table data item_id exec row =
      errorResponse updateNoPkErr ∧
    delete_data table_schemas table item_id exec =
      errorResponse deleteNoPkErr := by
  have hu : update_build table_schemas table data item_id = .error updateNoPkErr := by
    cases hs : lookupSchema table_schemas table with
    | none => simp [update_build, hs]
    | some s =>
      cases hp : s.primaryKey with
      | none => simp [update_build, hs, hp]
      | some pk =>
        have hpe : pk = "" := by
          have h2 := h
          simpa [missingPk, hs, hp, pyTruthy] using h2
        subst hpe
        simp [update_build, hs, hp]
  have hd : delete_build table_schemas table item_id = .error deleteNoPkErr := by
    cases hs : lookupSchema table_schemas table with
    | none => simp [delete_build, hs]
    | some s =>
      cases hp : s.primaryKey with
      | none => simp [delete_build, hs, hp]
      | some pk =>
        have hpe : pk = "" := by
          have h2 := h
          simpa [missingPk, hs, hp, pyTruthy] using h2
        subst hpe
        simp [delete_build, hs, hp]
  exact ⟨hu, hd, by simp [update_data, hu], by simp [delete_data, hd]⟩

/-- Claim C6: the column list of the generated INSERT statement is
exactly the keys of the submitted record in their given order, for any
record whatsoever — `create_data` performs no validation against the
table schema, which it never even receives — and a table outside the
configured list yields the 404 unknown-table error before a statement
exists. -/
theorem create_data_columns_verbatim (table_names : List String)
    (table : String) (data : Record) :
    Except.map InsertQuery.columns (create_data table_names table data) =
      (if table ∈ table_names then .ok (data.map Prod.fst)
       else .error unknownTableErr) := by
  by_cases h : table ∈ table_names <;> simp [create_data, h, Except.map]

/-- Claim C7: a configured table whose catalog query yields zero columns
is omitted from the schema registry and a warning is surfaced for it,
while every configured table with a nonempty catalog result is still
loaded with its schema — one zero-column table never aborts the
processing of the remaining names. -/
theorem startup_zero_column_isolation
    (db : String → List ColumnInfo) (names : List String) (t u : String)
    (hmem : t ∈ names) (hzero : db t = [])
    (humem : u ∈ names) (hune : db u ≠ []) :
    lookupSchema (startup_event db names).1 t = none ∧
    t ∈ (startup_event db names).2 ∧
    lookupSchema (startup_event db names).1 u = some (mkSchema (db u)) :=
  ⟨startup_not_registered db t hzero names,
   startup_warned db t hzero names hmem,
   startup_registered db u hune names humem⟩

/-- Claim C8: a delete whose statement executes with at least one
affected row commits and responds with status 204 and the empty JSON
object passed to the response — no record content, no error detail, no
rollback. -/
theorem delete_success_commits_204_empty
    (table_schemas : SchemaRegistry) (table : String) (item_id : Value)
    (q : DeleteQuery) (rc : Nat)
    (hq : delete_build table_schemas table item_id = .ok q)
    (hrc : rc ≠ 0) :
    delete_data table_schemas table item_id (.ok rc) =
      { status := 204, body := some [], detail := none,
        committed := true, rolledBack := false } := by
  simp [delete_data, hq, delete_try_body, hrc]

/-- Claim C9: when `sort_by` is absent or empty (Python-falsy), the
`sort_order` parameter is never validated: the handler behaves exactly
as it does with `sort_order = "asc"`, never yields the invalid-sort-order
error, and for a table whose schema has a primary key it produces the
default primary-key-ascending select. -/
theorem get_data_sort_order_ignored_when_no_sort_by
    (table_names : List String) (table_schemas : SchemaRegistry)
    (table : String) (sort_by : Option String) (sort_order : String)
    (schema : TableSchema) (pk : String)
    (hfalsy : pyTruthy sort_by = false)
    (hmem : table ∈ table_names)
    (hschema : lookupSchema table_schemas table = some schema)
    (hpk : schema.primaryKey = some pk) (hpkne : pk ≠ "") :
    get_data table_names table_schemas table sort_by sort_order =
      get_data table_names table_schemas table sort_by "asc" ∧
    get_data table_names table_schemas table sort_by sort_order ≠
      .error invalidSortOrderErr ∧
    get_data table_names table_schemas table sort_by sort_order =
      .ok (selectQuery table ("ORDER BY " ++ quoteId pk ++ " ASC")) := by
  have hres : ∀ so, get_data table_names table_schemas table sort_by so =
      .ok (selectQuery table ("ORDER BY " ++ quoteId pk ++ " ASC")) := by
    intro so
    simp [get_data, hmem, hschema, hfalsy, defaultOrderClause, hpk, hpkne]
  refine ⟨(hres sort_order).trans (hres "asc").symm, ?_, hres sort_order⟩
  rw [hres sort_order]
  simp

/-- Claim C10: a table name in the configured list whose schema failed to
load is rejected with the 404 schema-not-found error by the select
handler, but is accepted by the insert handler, which checks only list
membership (it never receives the registry) and builds the statement
from the submitted keys. -/
theorem unloaded_table_select_404_insert_ok
    (table_names : List String) (table_schemas : SchemaRegistry)
    (table : String) (data : Record) (sort_by : Option String)
    (sort_order : String)
    (hmem : table ∈ table_names)
    (hnone : lookupSchema table_schemas table = none) :
    get_data table_names table_schemas table sort_by sort_order =
      .error schemaNotFoundErr ∧
    Except.map InsertQuery.columns (create_data table_names table data) =
      .ok (data.map Prod.fst) := by
  constructor
  · simp [get_data, hmem, hnone]
  · simp [create_data, hmem, Except.map]

/-! ## Witnesses: each theorem with hypotheses applied at concrete inputs -/

theorem update_strips_primary_key_witness :
    lookupSchema demoRegistry "users" = some usersSchema ∧
    update_build demoRegistry "users" [("id", "99"), ("name", "Ann")] "7" =
      .ok demoUpdateQuery ∧
    (usersSchema.primaryKey = some demoUpdateQuery.pk ∧
      demoUpdateQuery.pk ∉ demoUpdateQuery.setColumns ∧
      lookupField
        (applyAssignments (demoUpdateQuery.setColumns.zip demoUpdateQuery.params)
          [("id", "7"), ("name", "Old")]) demoUpdateQuery.pk =
        lookupField [("id", "7"), ("name", "Old")] demoUpdateQuery.pk) :=
  ⟨by decide, rfl,
    update_strips_primary_key demoRegistry "users" [("id", "99"), ("name", "Ann")]
      "7" demoUpdateQuery usersSchema [("id", "7"), ("name", "Old")]
      (by decide) rfl⟩

theorem get_data_sort_validation_rejects_witness :
    "users" ∈ demoNames ∧
    lookupSchema demoRegistry "users" = some usersSchema ∧
    ("bogus" : String) ≠ "" ∧
    ("bogus" ∉ usersSchema.columns.map (fun c => c.column_name) ∨
      (pyLower "asc" ≠ "asc" ∧ pyLower "asc" ≠ "desc")) ∧
    get_data demoNames demoRegistry "users" (some "bogus") "asc" =
      .error (if "bogus" ∈ usersSchema.columns.map (fun c => c.column_name)
        then invalidSortOrderErr else invalidSortColumnErr) :=
  ⟨by decide, by decide, by decide, Or.inl (by decide),
    get_data_sort_validation_rejects demoNames demoRegistry "users" "bogus"
      "asc" usersSchema (by decide) (by decide) (by decide)
      (Or.inl (by decide))⟩

theorem get_data_default_ordering_witness :
    ("users" ∈ demoNames ∧
      lookupSchema demoRegistry "users" = some usersSchema ∧
      usersSchema.primaryKey ≠ some "" ∧
      get_data demoNames demoRegistry "users" none "asc" =
        .ok "SELECT * FROM \"users\" ORDER BY \"id\" ASC") ∧
    ("logs" ∈ demoNames ∧
      lookupSchema demoRegistry "logs" = some logsSchema ∧
      logsSchema.primaryKey ≠ some "" ∧
      get_data demoNames demoRegistry "logs" none "asc" =
        .ok "SELECT * FROM \"logs\" ") :=
  ⟨⟨by decide, by decide, by decide,
      get_data_default_ordering demoNames demoRegistry "users" "asc"
        usersSchema (by decide) (by decide) (by decide)⟩,
   ⟨by decide, by decide, by decide,
      get_data_default_ordering demoNames demoRegistry "logs" "asc"
        logsSchema (by decide) (by decide) (by decide)⟩⟩

theorem update_delete_missing_pk_400_witness :
    missingPk demoRegistry "logs" = true ∧
    (update_build demoRegistry "logs" [("msg", "x")] "1" = .error updateNoPkErr ∧
      delete_build demoRegistry "logs" "1" = .error deleteNoPkErr ∧
      update_data demoRegistry "logs" [("msg", "x")] "1" (.ok 1) [] =
        errorResponse updateNoPkErr ∧
      delete_data demoRegistry "logs" "1" (.ok 1) =
        errorResponse deleteNoPkErr) :=
  ⟨by decide,
    update_delete_missing_pk_400 demoRegistry "logs" [("msg", "x")] "1"
      (.ok 1) [] (by decide)⟩

theorem startup_zero_column_isolation_witness :
    "ghost" ∈ demoNames ∧ demoDb "ghost" = [] ∧
    "users" ∈ demoNames ∧ demoDb "users" ≠ [] ∧
    (lookupSchema (startup_event demoDb demoNames).1 "ghost" = none ∧
      "ghost" ∈ (startup_event demoDb demoNames).2 ∧
      lookupSchema (startup_event demoDb demoNames).1 "users" =
        some (mkSchema (demoDb "users"))) :=
  ⟨by decide, by decide, by decide, by decide,
    startup_zero_column_isolation demoDb demoNames "ghost" "users"
      (by decide) (by decide) (by decide) (by decide)⟩

theorem delete_success_commits_204_empty_witness :
    delete_build demoRegistry "users" "7" = .ok demoDeleteQuery ∧
    (1 : Nat) ≠ 0 ∧
    delete_data demoRegistry "users" "7" (.ok 1) =
      { status := 204, body := some [], detail := none,
        committed := true, rolledBack := false } :=
  ⟨rfl, by decide,
    delete_success_commits_204_empty demoRegistry "users" "7" demoDeleteQuery 1
      rfl (by decide)⟩

theorem get_data_sort_order_ignored_when_no_sort_by_witness :
    pyTruthy (some "") = false ∧
    "users" ∈ demoNames ∧
    lookupSchema demoRegistry "users" = some usersSchema ∧
    usersSchema.primaryKey = some "id" ∧ ("id" : String) ≠ "" ∧
    (get_data demoNames demoRegistry "users" (some "") "sideways" =
        get_data demoNames demoRegistry "users" (some "") "asc" ∧
      get_data demoNames demoRegistry "users" (some "") "sideways" ≠
        .error invalidSortOrderErr ∧
      get_data demoNames demoRegistry "users" (some "") "sideways" =
        .ok (selectQuery "users" ("ORDER BY " ++ quoteId "id" ++ " ASC"))) :=
  ⟨by decide, by decide, by decide, by decide, by decide,
    get_data_sort_order_ignored_when_no_sort_by demoNames demoRegistry "users"
      (some "") "sideways" usersSchema "id" (by decide) (by decide) (by decide)
      (by decide) (by decide)⟩

theorem unloaded_table_select_404_insert_ok_witness :
    "ghost" ∈ demoNames ∧
    lookupSchema demoRegistry "ghost" = none ∧
    (get_data demoNames demoRegistry "ghost" none "asc" =
        .error schemaNotFoundErr ∧
      Except.map InsertQuery.columns
        (create_data demoNames "ghost" [("msg", "x"), ("level", "3")]) =
        .ok ["msg", "level"]) :=
  ⟨by decide, by decide,
    unloaded_table_select_404_insert_ok demoNames demoRegistry "ghost"
      [("msg", "x"), ("level", "3")] none "asc" (by decide) (by decide)⟩

end PgWebui
